import Mathlib

/-!
Verification of the project-vivi monitoring core: a shallow embedding of
the behavior analyzer (`src/core/ai/analyzer.py`), the feedback engine
(`src/core/ai/feedback_engine.py`) and the input monitor
(`src/core/monitors/input_monitor.py`), with theorems settling the
specification's claims about them.

Conventions of the embedding:
- Python floats are modelled as rationals (`ℚ`); all score constants in the
  source are decimal literals, taken at their exact decimal value.
- A Python dict read with `d.get(key)` in boolean position is modelled as a
  `Bool` field that is `false` when the key is absent, since `None` and
  `False` are both falsy.  Keys read with an explicit default
  (`get('change_detected', True)`, `get('brightness', 128)`) are modelled
  as `Option` fields together with the default.
- The input history `deque(maxlen=1000)` is a `List` (oldest first) with an
  explicit eviction step on append.
-/

namespace Vivi

/-- Case-insensitive substring test on character lists: `hasPrefixChars n h`
holds when `n` is an initial segment of `h`. -/
def hasPrefixChars : List Char → List Char → Bool
  | [], _ => true
  | _ :: _, [] => false
  | a :: as, b :: bs => a == b && hasPrefixChars as bs

/-- `containsChars needle hay`: `needle` occurs contiguously inside `hay`
(Python's `needle in hay` on strings). -/
def containsChars (needle : List Char) : List Char → Bool
  | [] => needle.isEmpty
  | b :: bs => hasPrefixChars needle (b :: bs) || containsChars needle bs

/-- Python `keyword in text` for strings, after both have been lowercased
by the caller in the source. -/
def strContains (text keyword : String) : Bool :=
  containsChars keyword.data text.data

/-- ASCII lowercase of one character (`str.lower()` on the ASCII inputs the
analyzer handles). -/
def lowerChar (c : Char) : Char :=
  if 65 ≤ c.toNat ∧ c.toNat ≤ 90 then Char.ofNat (c.toNat + 32) else c

/-- Python `s.lower()` on ASCII strings. -/
def lowerStr (s : String) : String :=
  ⟨s.data.map lowerChar⟩

/-- `BehaviorAnalyzer.distraction_keywords` from `analyzer.py`. -/
def distraction_keywords : List String :=
  ["youtube", "facebook", "twitter", "instagram", "tiktok",
   "reddit", "netflix", "gaming", "game", "entertainment"]

/-- `BehaviorAnalyzer.productivity_keywords` from `analyzer.py`. -/
def productivity_keywords : List String :=
  ["code", "programming", "work", "document", "email",
   "meeting", "project", "task", "development"]

/-- The `analysis` sub-mapping of a screen sample: both keys may be absent
(`screen_data.get('analysis', {})` then `.get` with defaults). -/
structure ScreenAnalysis where
  change_detected : Option Bool
  brightness : Option ℚ
  deriving Repr, DecidableEq

/-- A screen sample as consumed by `_analyze_screen_data`. -/
structure ScreenData where
  analysis : ScreenAnalysis
  deriving Repr, DecidableEq

/-- A process entry as consumed by `_analyze_process_data` (`p['name']`). -/
structure ProcessInfo where
  name : String
  deriving Repr, DecidableEq

/-- The foreground-window sample as consumed by `_analyze_window_data`;
`get('title', '')` and `get('process_name', '')` make absent keys `""`. -/
structure WindowData where
  title : String := ""
  process_name : String := ""
  deriving Repr, DecidableEq

/-- An input event as appended by `InputMonitor._add_input_event`: a type
tag, a description, a timestamp, and optional `x`/`y` keyword fields (only
mouse-move events carry them). -/
structure InputEvent where
  type : String
  description : String
  timestamp : ℚ
  x : Option ℤ := none
  y : Option ℤ := none
  deriving Repr, DecidableEq

/-- The sample bundle handed to `BehaviorAnalyzer.analyze`.  `none` for
`screen`/`window` covers both an absent key and a falsy value (the source
guards with `'screen' in data and data['screen']`); `none` for
`processes`/`input` covers an absent key (the source guards with
`'processes' in data` only). -/
structure Bundle where
  screen : Option ScreenData := none
  processes : Option (List ProcessInfo) := none
  window : Option WindowData := none
  input : Option (List InputEvent) := none

/-- The flat analysis record built by `BehaviorAnalyzer.analyze`.  Boolean
fields are `false` when the corresponding dict key was never set, matching
Python's falsy `analysis.get(key)`. -/
structure AnalysisRecord where
  distraction_detected : Bool := false
  productivity_detected : Bool := false
  screen_static : Bool := false
  screen_dark : Bool := false
  screen_brightness : ℚ := 0
  distraction_processes : ℕ := 0
  productivity_processes : ℕ := 0
  total_processes : ℕ := 0
  active_window : String := ""
  active_process : String := ""
  input_active : Bool := false
  typing_rate : ℚ := 0
  rapid_typing : Bool := false
  total_input_events : ℕ := 0
  focus_score : ℚ := 0
  needs_feedback : Bool := false
  deriving Repr

/-- The three fields `_analyze_screen_data` contributes to the record. -/
structure ScreenResult where
  screen_static : Bool
  screen_dark : Bool
  screen_brightness : ℚ
  deriving Repr, DecidableEq

/-- `BehaviorAnalyzer._analyze_screen_data`: `screen_static` is
`not analysis.get('change_detected', True)`; `screen_dark` is
`analysis.get('brightness', 128) < 50`. -/
def analyze_screen_data (screen_data : ScreenData) : ScreenResult :=
  let is_static := ! (screen_data.analysis.change_detected.getD true)
  let brightness := screen_data.analysis.brightness.getD 128
  let is_dark := decide (brightness < 50)
  { screen_static := is_static, screen_dark := is_dark,
    screen_brightness := brightness }

/-- Whether a lowercased process name matches any keyword of a list
(`any(keyword in name for keyword in keywords)`). -/
def nameMatchesAny (keywords : List String) (name : String) : Bool :=
  keywords.any fun keyword => strContains name keyword

/-- The three fields `_analyze_process_data` contributes to the record. -/
structure ProcessResult where
  distraction_processes : ℕ
  productivity_processes : ℕ
  total_processes : ℕ
  deriving Repr, DecidableEq

/-- `BehaviorAnalyzer._analyze_process_data`: counts of lowercased process
names containing a distraction / productivity keyword. -/
def analyze_process_data (processes : List ProcessInfo) : ProcessResult :=
  let process_names := processes.map fun p => lowerStr p.name
  { distraction_processes :=
      (process_names.filter (nameMatchesAny distraction_keywords)).length
    productivity_processes :=
      (process_names.filter (nameMatchesAny productivity_keywords)).length
    total_processes := processes.length }

/-- The four fields `_analyze_window_data` contributes to the record. -/
structure WindowResult where
  distraction_detected : Bool
  productivity_detected : Bool
  active_window : String
  active_process : String
  deriving Repr, DecidableEq

/-- `BehaviorAnalyzer._analyze_window_data`: keyword match against the
lowercased window title or process name. -/
def analyze_window_data (window_data : WindowData) : WindowResult :=
  let window_title := lowerStr window_data.title
  let process_name := lowerStr window_data.process_name
  let distraction_detected := distraction_keywords.any fun keyword =>
    strContains window_title keyword || strContains process_name keyword
  let productivity_detected := productivity_keywords.any fun keyword =>
    strContains window_title keyword || strContains process_name keyword
  { distraction_detected := distraction_detected
    productivity_detected := productivity_detected
    active_window := window_title
    active_process := process_name }

/-- The fields `_analyze_input_data` contributes to the record. -/
structure InputResult where
  input_active : Bool
  typing_rate : ℚ
  rapid_typing : Bool
  total_input_events : ℕ
  deriving Repr, DecidableEq

/-- `BehaviorAnalyzer._analyze_input_data`: on an empty list only
`input_active := false` and `typing_rate := 0` are set (the source returns
early), modelled by leaving the other fields at their record defaults. -/
def analyze_input_data (input_data : List InputEvent) : InputResult :=
  if input_data.isEmpty then
    { input_active := false, typing_rate := 0,
      rapid_typing := false, total_input_events := 0 }
  else
    let key_events := input_data.filter fun e =>
      e.type == "key_press" || e.type == "key_release"
    let time_span : ℚ :=
      if input_data.length > 1 then
        (input_data.getLast?.elim 0 InputEvent.timestamp) -
          (input_data.head?.elim 0 InputEvent.timestamp)
      else 1
    let typing_rate : ℚ := key_events.length / max time_span 1
    let rapid_typing := decide (typing_rate > 5)
    { input_active := decide (input_data.length > 0)
      typing_rate := typing_rate
      rapid_typing := rapid_typing
      total_input_events := input_data.length }

/-- Clamp to `[0, 1]` (`max(0.0, min(1.0, score))`). -/
def clamp01 (x : ℚ) : ℚ := max 0 (min 1 x)

/-- `BehaviorAnalyzer._calculate_focus_score` before the final clamp: the
sequential `score += / -=` adjustments applied to the neutral 0.5. -/
def focus_score_raw (a : AnalysisRecord) : ℚ :=
  let score : ℚ := 0.5
  let score := if a.productivity_detected then score + 0.3 else score
  let score := if a.input_active then score + 0.2 else score
  let score := if ! a.screen_static then score + 0.1 else score
  let score := if a.distraction_detected then score - 0.4 else score
  let score := if a.screen_dark then score - 0.2 else score
  let score := if a.screen_static then score - 0.1 else score
  score

/-- `BehaviorAnalyzer._calculate_focus_score`. -/
def calculate_focus_score (a : AnalysisRecord) : ℚ :=
  clamp01 (focus_score_raw a)

/-- `BehaviorAnalyzer._should_provide_feedback`. -/
def should_provide_feedback (a : AnalysisRecord) : Bool :=
  if a.focus_score < 0.3 then true
  else if a.distraction_detected then true
  else if a.screen_static && ! a.input_active then true
  else false

/-- `BehaviorAnalyzer.analyze`: merge the sub-analyses of whichever bundle
parts are present into one record, then set `focus_score` and
`needs_feedback`. -/
def analyze (b : Bundle) : AnalysisRecord :=
  let a : AnalysisRecord := {}
  let a := match b.screen with
    | none => a
    | some s =>
        let r := analyze_screen_data s
        { a with screen_static := r.screen_static,
                 screen_dark := r.screen_dark,
                 screen_brightness := r.screen_brightness }
  let a := match b.processes with
    | none => a
    | some ps =>
        let r := analyze_process_data ps
        { a with distraction_processes := r.distraction_processes,
                 productivity_processes := r.productivity_processes,
                 total_processes := r.total_processes }
  let a := match b.window with
    | none => a
    | some w =>
        let r := analyze_window_data w
        { a with distraction_detected := r.distraction_detected,
                 productivity_detected := r.productivity_detected,
                 active_window := r.active_window,
                 active_process := r.active_process }
  let a := match b.input with
    | none => a
    | some inp =>
        let r := analyze_input_data inp
        { a with input_active := r.input_active,
                 typing_rate := r.typing_rate,
                 rapid_typing := r.rapid_typing,
                 total_input_events := r.total_input_events }
  let a := { a with focus_score := calculate_focus_score a }
  { a with needs_feedback := should_provide_feedback a }

/-- `InputMonitor._add_input_event` acting on the history: a
`deque(maxlen=max_history)` append, evicting from the front once the
capacity is exceeded.  The history list is oldest-first. -/
def add_input_event (max_history : ℕ) (history : List InputEvent)
    (e : InputEvent) : List InputEvent :=
  let h := history ++ [e]
  h.drop (h.length - max_history)

/-- `InputMonitor.__init__` default capacity. -/
def default_max_history : ℕ := 1000

/-- The `mouse_move` event `_on_mouse_move` appends
(`self._add_input_event('mouse_move', f"to ({x}, {y})", x=x, y=y)`). -/
def mouse_move_event (now : ℚ) (x y : ℤ) : InputEvent :=
  { type := "mouse_move",
    description := "to (" ++ toString x ++ ", " ++ toString y ++ ")",
    timestamp := now, x := some x, y := some y }

/-- `InputMonitor._on_mouse_move`: append a `mouse_move` event only when
the history is empty or the cursor is more than 10 pixels away, in either
axis, from the `x`/`y` of the LAST event in the history (whatever its
type; absent coordinates default to 0). -/
def on_mouse_move (history : List InputEvent) (now : ℚ) (x y : ℤ) :
    List InputEvent :=
  let significant :=
    match history.getLast? with
    | none => true
    | some last =>
        decide ((x - last.x.getD 0).natAbs > 10) ||
        decide ((y - last.y.getD 0).natAbs > 10)
  if significant then
    add_input_event default_max_history history (mouse_move_event now x y)
  else history

/-- `InputMonitor.get_recent_input`: the events whose timestamp is at
least `now - seconds`. -/
def get_recent_input (history : List InputEvent) (now seconds : ℚ) :
    List InputEvent :=
  history.filter fun e => decide (now - seconds ≤ e.timestamp)

/-- The mapping returned by `get_input_patterns` on a non-empty history. -/
structure InputPatterns where
  event_counts : String → ℕ
  typing_rate : ℚ
  mouse_activity : ℚ
  total_events : ℕ
  is_active : Bool

/-- `InputMonitor.get_input_patterns`: `none` models the empty dict the
source returns on an empty history; otherwise statistics over the trailing
60-second window.  The Python dict of per-type counts is modelled as the
counting function. -/
def get_input_patterns (history : List InputEvent) (now : ℚ) :
    Option InputPatterns :=
  if history.isEmpty then none
  else
    let recent_events := get_recent_input history now 60
    let key_events := recent_events.filter fun e =>
      e.type == "key_press" || e.type == "key_release"
    let typing_rate : ℚ := key_events.length / 60
    let mouse_events := recent_events.filter fun e =>
      hasPrefixChars "mouse".data e.type.data
    let mouse_activity : ℚ := mouse_events.length / 60
    some { event_counts := fun t =>
             (recent_events.filter fun e => e.type == t).length
           typing_rate := typing_rate
           mouse_activity := mouse_activity
           total_events := recent_events.length
           is_active :=
             decide (typing_rate > 0.5) || decide (mouse_activity > 0.1) }

/-- `FeedbackEngine._determine_feedback_type`. -/
def determine_feedback_type (a : AnalysisRecord) : String :=
  if a.distraction_detected then "distraction_alert"
  else if a.focus_score < 0.3 then "focus_reminder"
  else if a.screen_static && ! a.input_active then "inactivity_reminder"
  else if a.rapid_typing then "stress_alert"
  else "general_encouragement"

/-- `FeedbackEngine._determine_priority`. -/
def determine_priority (a : AnalysisRecord) : String :=
  if a.distraction_detected then "high"
  else if a.focus_score < 0.2 then "high"
  else if a.rapid_typing then "medium"
  else "low"

/-- The input history produced by appending a sequence of events to an
initially empty monitor, one `_add_input_event` at a time. -/
def input_history_of (events : List InputEvent) : List InputEvent :=
  events.foldl (add_input_event default_max_history) []

/-- Modelled from the claim's words, for comparison with `on_mouse_move`:
whether the cursor at `(x, y)` has moved more than 10 pixels in either
axis since the last recorded `mouse_move` event of the history (always
true when there is none). -/
def movedFromLastMouseMove (history : List InputEvent) (x y : ℤ) : Bool :=
  match (history.filter fun e => e.type == "mouse_move").getLast? with
  | none => true
  | some last =>
      decide ((x - last.x.getD 0).natAbs > 10) ||
      decide ((y - last.y.getD 0).natAbs > 10)

/-- A generic keyboard event used as a concrete test input. -/
def kp_event : InputEvent :=
  { type := "key_press", description := "a", timestamp := 1 }

/-- A recorded mouse-move at `(100, 100)` used as a concrete test input. -/
def mm_event : InputEvent := mouse_move_event 0 100 100

/-- A history whose last `mouse_move` sits at `(100, 100)` but whose last
event overall is a key press without coordinates. -/
def history5 : List InputEvent := [mm_event, kp_event]

/-- The analysis record of a tick where only `distraction_detected` fired. -/
def r_distraction_only : AnalysisRecord := { distraction_detected := true }

/-- The bundle of C8: no screen sample, no window, empty process and input
lists. -/
def empty_bundle : Bundle := { processes := some [], input := some [] }

/-- The bundle of C9: a YouTube window plus a `chrome.exe` process. -/
def youtube_bundle : Bundle :=
  { processes := some [{ name := "chrome.exe" }],
    window := some { title := "YouTube - Chrome" } }

/-- A screen sample whose `analysis` sub-mapping carries neither
`change_detected` nor `brightness`. -/
def empty_screen : ScreenData := ⟨⟨none, none⟩⟩

/-- A generic keyboard event used as a concrete test input. -/
def ev0 : InputEvent :=
  { type := "key_press", description := "k", timestamp := 0 }

/-- `analyze` computes `focus_score` from the merged record's flag fields,
which the final two record updates leave untouched. -/
lemma focus_score_analyze (b : Bundle) :
    (analyze b).focus_score = calculate_focus_score
      { distraction_detected := (analyze b).distraction_detected
        productivity_detected := (analyze b).productivity_detected
        screen_static := (analyze b).screen_static
        screen_dark := (analyze b).screen_dark
        input_active := (analyze b).input_active } := by
  rcases b with ⟨sc, ps, w, inp⟩
  cases sc <;> cases ps <;> cases w <;> cases inp <;>
    simp [analyze, calculate_focus_score, focus_score_raw]

/-- `analyze` computes `needs_feedback` from the final `focus_score` and
the merged flags. -/
lemma needs_feedback_analyze (b : Bundle) :
    (analyze b).needs_feedback = should_provide_feedback
      { distraction_detected := (analyze b).distraction_detected
        screen_static := (analyze b).screen_static
        input_active := (analyze b).input_active
        focus_score := (analyze b).focus_score } := by
  rcases b with ⟨sc, ps, w, inp⟩
  cases sc <;> cases ps <;> cases w <;> cases inp <;>
    simp [analyze, should_provide_feedback, calculate_focus_score]

/-- One `_add_input_event` append is an append followed by dropping the
overflow from the front. -/
lemma add_input_event_eq_drop (cap : ℕ) (h : List InputEvent)
    (e : InputEvent) :
    add_input_event cap h e = (h ++ [e]).drop (h.length + 1 - cap) := by
  simp [add_input_event]

/-- Folding `_add_input_event` over an event sequence keeps exactly the
most recent `cap` events, in arrival order. -/
lemma foldl_add_input_event (cap : ℕ) (hcap : 0 < cap)
    (es : List InputEvent) :
    es.foldl (add_input_event cap) [] = es.drop (es.length - cap) := by
  induction es using List.reverseRecOn with
  | nil => simp
  | append_singleton es a ih =>
    rw [List.foldl_append, List.foldl_cons, List.foldl_nil, ih,
      add_input_event_eq_drop]
    rcases Nat.lt_or_ge es.length cap with hlt | hge
    · rw [Nat.sub_eq_zero_of_le hlt.le, List.drop_zero]
      simp
    · have hlen : (es.drop (es.length - cap)).length = cap := by
        rw [List.length_drop]; omega
      have hstep1 : ((es.drop (es.length - cap)) ++ [a]).drop
          ((es.drop (es.length - cap)).length + 1 - cap) =
          es.drop (es.length - cap + 1) ++ [a] := by
        rw [hlen]
        have h1 : cap + 1 - cap = 1 := by omega
        rw [h1, List.drop_append_of_le_length (by rw [hlen]; exact hcap),
          List.drop_drop]
      have hstep2 : (es ++ [a]).drop ((es ++ [a]).length - cap) =
          es.drop (es.length + 1 - cap) ++ [a] := by
        have h2 : (es ++ [a]).length - cap = es.length + 1 - cap := by
          simp
        rw [h2, List.drop_append_of_le_length (by omega)]
      rw [hstep1, hstep2]
      have h3 : es.length - cap + 1 = es.length + 1 - cap := by omega
      rw [h3]

/-- C1: `_calculate_focus_score` equals 0.5 plus 0.3 for
`productivity_detected`, 0.2 for `input_active`, 0.1 for not
`screen_static`, minus 0.4 for `distraction_detected`, 0.2 for
`screen_dark` and 0.1 for `screen_static`, clamped to `[0, 1]`. -/
theorem calculate_focus_score_formula (a : AnalysisRecord) :
    calculate_focus_score a =
      clamp01 ((0.5 : ℚ)
        + (if a.productivity_detected then 0.3 else 0)
        + (if a.input_active then 0.2 else 0)
        + (if ! a.screen_static then 0.1 else 0)
        - (if a.distraction_detected then 0.4 else 0)
        - (if a.screen_dark then 0.2 else 0)
        - (if a.screen_static then 0.1 else 0)) := by
  rcases a with ⟨d, p, ss, sd, _, _, _, _, _, _, ia, _, _, _, _, _⟩
  cases d <;> cases p <;> cases ss <;> cases sd <;> cases ia <;>
    norm_num [calculate_focus_score, focus_score_raw, clamp01]

/-- C2: `_should_provide_feedback` holds exactly when the focus score is
below 0.3, or a distraction was detected, or the screen is static without
input activity; a score of exactly 0.3 alone does not trigger it, while
0.29 does regardless of the other fields. -/
theorem should_provide_feedback_iff (a : AnalysisRecord) :
    (should_provide_feedback a = true ↔
      (a.focus_score < 0.3 ∨ a.distraction_detected = true ∨
        (a.screen_static = true ∧ a.input_active = false))) ∧
    should_provide_feedback { focus_score := 0.3 } = false ∧
    should_provide_feedback
      { focus_score := 0.29, productivity_detected := true,
        input_active := true, screen_dark := true } = true := by
  refine ⟨?_, ?_, ?_⟩
  · rcases a with ⟨d, p, ss, sd, _, _, _, _, _, _, ia, _, _, _, fs, _⟩
    cases d <;> cases ss <;> cases ia <;>
      by_cases hfs : fs < 0.3 <;>
      simp [should_provide_feedback, hfs]
  · norm_num [should_provide_feedback]
  · norm_num [should_provide_feedback]

/-- C3: `_determine_feedback_type` is a strict priority chain —
`distraction_alert`, then `focus_reminder` on a score below 0.3, then
`inactivity_reminder` on a static screen without input, then
`stress_alert` on rapid typing, else `general_encouragement`; with both a
distraction and a 0.1 score, it picks `distraction_alert`, never
`focus_reminder`. -/
theorem determine_feedback_type_chain (a : AnalysisRecord) :
    (determine_feedback_type a = "distraction_alert" ↔
      a.distraction_detected = true) ∧
    (determine_feedback_type a = "focus_reminder" ↔
      (a.distraction_detected = false ∧ a.focus_score < 0.3)) ∧
    (determine_feedback_type a = "inactivity_reminder" ↔
      (a.distraction_detected = false ∧ ¬ a.focus_score < 0.3 ∧
       a.screen_static = true ∧ a.input_active = false)) ∧
    (determine_feedback_type a = "stress_alert" ↔
      (a.distraction_detected = false ∧ ¬ a.focus_score < 0.3 ∧
       ¬ (a.screen_static = true ∧ a.input_active = false) ∧
       a.rapid_typing = true)) ∧
    (determine_feedback_type a = "general_encouragement" ↔
      (a.distraction_detected = false ∧ ¬ a.focus_score < 0.3 ∧
       ¬ (a.screen_static = true ∧ a.input_active = false) ∧
       a.rapid_typing = false)) ∧
    determine_feedback_type
      { distraction_detected := true, focus_score := 0.1 } =
        "distraction_alert" ∧
    determine_feedback_type
      { distraction_detected := true, focus_score := 0.1 } ≠
        "focus_reminder" := by
  rcases a with ⟨d, p, ss, sd, _, _, _, _, _, _, ia, _, rt, _, fs, _⟩
  cases d <;> cases ss <;> cases ia <;> cases rt <;>
    by_cases hfs : fs < 0.3 <;>
    simp [determine_feedback_type, hfs]

/-- C4 counterexample: with only `distraction_detected` set, the raw and
final focus scores are not 0.1. -/
theorem focus_score_distraction_only_ne :
    ¬ (focus_score_raw r_distraction_only = 0.1 ∧
       calculate_focus_score r_distraction_only = 0.1) := by
  norm_num [focus_score_raw, calculate_focus_score, clamp01,
    r_distraction_only]

/-- C4 amended: with `distraction_detected` set and every other adjustment
input false, the `+0.1` bonus for a non-static screen still applies, so
the raw score is `0.5 + 0.1 - 0.4 = 0.2` and the final score is 0.2. -/
theorem focus_score_distraction_only :
    focus_score_raw r_distraction_only = 0.2 ∧
    calculate_focus_score r_distraction_only = 0.2 := by
  norm_num [focus_score_raw, calculate_focus_score, clamp01,
    r_distraction_only]

/-- C8: analyzing a bundle with no screen sample, no window, an empty
process list and an empty input list yields a record with all detection
flags false and `focus_score = 0.5 + 0.1 = 0.6`, hence no feedback. -/
theorem analyze_empty_bundle :
    (analyze empty_bundle).distraction_detected = false ∧
    (analyze empty_bundle).productivity_detected = false ∧
    (analyze empty_bundle).screen_static = false ∧
    (analyze empty_bundle).screen_dark = false ∧
    (analyze empty_bundle).input_active = false ∧
    (analyze empty_bundle).focus_score = 0.5 + 0.1 ∧
    (analyze empty_bundle).needs_feedback = false := by
  norm_num [analyze, empty_bundle, analyze_process_data, analyze_input_data,
    calculate_focus_score, focus_score_raw, clamp01, should_provide_feedback]

/-- C9: a bundle whose window is titled "YouTube - Chrome" with a
`chrome.exe` process yields a distraction, a focus score of at most 0.2,
feedback type `distraction_alert` and priority `high`. -/
theorem analyze_youtube_bundle :
    (analyze youtube_bundle).distraction_detected = true ∧
    (analyze youtube_bundle).focus_score ≤ 0.2 ∧
    determine_feedback_type (analyze youtube_bundle) = "distraction_alert" ∧
    determine_priority (analyze youtube_bundle) = "high" := by
  have hfs : (analyze youtube_bundle).focus_score = 0.2 := by
    rw [focus_score_analyze]
    have h1 : (analyze youtube_bundle).distraction_detected = true := by
      decide
    have h2 : (analyze youtube_bundle).productivity_detected = false := by
      decide
    have h3 : (analyze youtube_bundle).screen_static = false := by decide
    have h4 : (analyze youtube_bundle).screen_dark = false := by decide
    have h5 : (analyze youtube_bundle).input_active = false := by decide
    rw [h1, h2, h3, h4, h5]
    norm_num [calculate_focus_score, focus_score_raw, clamp01]
  refine ⟨by decide, le_of_eq hfs, ?_, by decide⟩
  decide

/-- C5 counterexample: moving to `(100, 100)` when the last recorded
`mouse_move` already sits at `(100, 100)` but a key press arrived after it
IS appended — `_on_mouse_move` compares against the last event of any
type, whose missing coordinates default to 0, not against the last
mouse-move. -/
theorem on_mouse_move_counterexample :
    movedFromLastMouseMove history5 100 100 = false ∧
    on_mouse_move history5 2 100 100 ≠ history5 := by
  constructor
  · decide
  · intro h
    have hlen := congrArg List.length h
    simp [on_mouse_move, add_input_event, history5, default_max_history,
      kp_event, mm_event, mouse_move_event] at hlen

/-- C5 amended: a mouse-move callback appends a `mouse_move` event exactly
when the history is empty or the cursor is more than 10 pixels away, in
either axis, from the `x`/`y` of the last event in the history of any
type (absent coordinates defaulting to 0); moves within that box leave
the history unchanged. -/
theorem on_mouse_move_throttle (history : List InputEvent) (now : ℚ)
    (x y : ℤ) :
    (history = [] → on_mouse_move history now x y =
      add_input_event default_max_history history
        (mouse_move_event now x y)) ∧
    (∀ last, history.getLast? = some last →
      (((x - last.x.getD 0).natAbs > 10 ∨ (y - last.y.getD 0).natAbs > 10) →
        on_mouse_move history now x y =
          add_input_event default_max_history history
            (mouse_move_event now x y)) ∧
      (¬ ((x - last.x.getD 0).natAbs > 10 ∨
            (y - last.y.getD 0).natAbs > 10) →
        on_mouse_move history now x y = history)) := by
  constructor
  · intro h
    subst h
    simp [on_mouse_move]
  · intro last hlast
    constructor
    · intro hcond
      rcases hcond with h | h <;> simp [on_mouse_move, hlast, h]
    · intro hcond
      push_neg at hcond
      simp [on_mouse_move, hlast, hcond.1, hcond.2]

/-- C5 witness: the empty history records a move; a 100-pixel move away
from a key press (coordinates defaulting to 0) records; a move onto the
coordinates of the last event does not. -/
theorem on_mouse_move_throttle_witness :
    on_mouse_move [] 0 5 5 =
      add_input_event default_max_history [] (mouse_move_event 0 5 5) ∧
    on_mouse_move [kp_event] 2 100 0 =
      add_input_event default_max_history [kp_event]
        (mouse_move_event 2 100 0) ∧
    on_mouse_move [mm_event] 2 100 100 = [mm_event] :=
  ⟨(on_mouse_move_throttle [] 0 5 5).1 rfl,
   ((on_mouse_move_throttle [kp_event] 2 100 0).2 kp_event (by decide)).1
     (by decide),
   ((on_mouse_move_throttle [mm_event] 2 100 100).2 mm_event (by decide)).2
     (by decide)⟩

/-- C6: after any sequence of appends the input history holds at most
1000 events — exactly the most recent 1000 in arrival order — and an
append to a full history of 1000 events evicts the oldest. -/
theorem input_history_bounded (es : List InputEvent) :
    (input_history_of es).length ≤ 1000 ∧
    input_history_of es = es.drop (es.length - 1000) ∧
    ∀ (h : List InputEvent) (e : InputEvent), h.length = 1000 →
      add_input_event default_max_history h e = h.tail ++ [e] := by
  have hmain : input_history_of es = es.drop (es.length - 1000) := by
    rw [input_history_of, default_max_history,
      foldl_add_input_event 1000 (by norm_num)]
  refine ⟨?_, hmain, ?_⟩
  · rw [hmain, List.length_drop]; omega
  · intro h e hlen
    rw [add_input_event_eq_drop, hlen, default_max_history]
    have h1 : 1000 + 1 - 1000 = 1 := by norm_num
    rw [h1, List.drop_append_of_le_length (by omega : 1 ≤ h.length),
      List.drop_one]

/-- C6 witness: appending to a full history of 1000 copies of an event
drops the head and appends the new event at the back. -/
theorem input_history_bounded_witness :
    (List.replicate 1000 ev0).length = 1000 ∧
    add_input_event default_max_history (List.replicate 1000 ev0) ev0 =
      (List.replicate 1000 ev0).tail ++ [ev0] :=
  ⟨List.length_replicate 1000 ev0,
   (input_history_bounded []).2.2 _ _ (List.length_replicate 1000 ev0)⟩

/-- C7 counterexample: on an empty input history `get_input_patterns`
returns the empty mapping, which contains none of `event_counts`,
`typing_rate`, `mouse_activity` or `is_active`. -/
theorem get_input_patterns_empty :
    get_input_patterns [] 0 = none := by
  simp [get_input_patterns]

/-- C7 amended: on every NON-empty input history `get_input_patterns`
returns a mapping with `event_counts`, `typing_rate`, `mouse_activity`
and `is_active` computed over the trailing 60-second window:
`typing_rate` counts key events over 60, `mouse_activity` counts events
whose type starts with "mouse" over 60, and `is_active` holds when
`typing_rate > 0.5` or `mouse_activity > 0.1`. -/
theorem get_input_patterns_spec (history : List InputEvent) (now : ℚ)
    (hne : history ≠ []) :
    ∃ p, get_input_patterns history now = some p ∧
      p.typing_rate = ((history.filter fun e =>
          (e.type == "key_press" || e.type == "key_release") &&
            decide (now - 60 ≤ e.timestamp)).length : ℚ) / 60 ∧
      p.mouse_activity = ((history.filter fun e =>
          hasPrefixChars "mouse".data e.type.data &&
            decide (now - 60 ≤ e.timestamp)).length : ℚ) / 60 ∧
      (p.is_active = true ↔ (p.typing_rate > 0.5 ∨ p.mouse_activity > 0.1)) ∧
      ∀ t, p.event_counts t = (history.filter fun e =>
          (e.type == t) && decide (now - 60 ≤ e.timestamp)).length := by
  have h1 : history.isEmpty = false := by simp [hne]
  simp only [get_input_patterns, h1, Bool.false_eq_true, if_false]
  refine ⟨_, rfl, ?_, ?_, ?_, ?_⟩
  · simp [get_recent_input, List.filter_filter]
  · simp [get_recent_input, List.filter_filter]
  · simp
  · intro t
    simp [get_recent_input, List.filter_filter]

/-- C7 witness: the statistics of a one-event history. -/
theorem get_input_patterns_spec_witness :
    ∃ p, get_input_patterns [ev0] 0 = some p ∧
      p.typing_rate = (([ev0].filter fun e =>
          (e.type == "key_press" || e.type == "key_release") &&
            decide ((0 : ℚ) - 60 ≤ e.timestamp)).length : ℚ) / 60 ∧
      p.mouse_activity = (([ev0].filter fun e =>
          hasPrefixChars "mouse".data e.type.data &&
            decide ((0 : ℚ) - 60 ≤ e.timestamp)).length : ℚ) / 60 ∧
      (p.is_active = true ↔ (p.typing_rate > 0.5 ∨ p.mouse_activity > 0.1)) ∧
      ∀ t, p.event_counts t = ([ev0].filter fun e =>
          (e.type == t) && decide ((0 : ℚ) - 60 ≤ e.timestamp)).length :=
  get_input_patterns_spec [ev0] 0 (by simp)

/-- C10: a screen sample whose analysis mapping lacks `change_detected`
defaults it to true (screen not static) and one lacking `brightness`
defaults it to 128 (screen not dark); a screen sample with an empty
analysis mapping leaves the focus score exactly as if no screen sample
were present. -/
theorem screen_analysis_defaults (cd : Option Bool) (br : Option ℚ)
    (b : Bundle) :
    (analyze_screen_data ⟨⟨none, br⟩⟩).screen_static = false ∧
    (analyze_screen_data ⟨⟨cd, none⟩⟩).screen_dark = false ∧
    (analyze_screen_data ⟨⟨cd, none⟩⟩).screen_brightness = 128 ∧
    (analyze { b with screen := some empty_screen }).focus_score =
      (analyze { b with screen := none }).focus_score := by
  have hdark : decide ((128 : ℚ) < 50) = false := by norm_num
  refine ⟨by simp [analyze_screen_data],
    by simp [analyze_screen_data, hdark],
    by simp [analyze_screen_data], ?_⟩
  rcases b with ⟨sc, ps, w, inp⟩
  cases ps <;> cases w <;> cases inp <;>
    simp [analyze, empty_screen, analyze_screen_data, calculate_focus_score,
      focus_score_raw, clamp01, hdark]

end Vivi
